import Mathlib

/-!
Verification development for the RAG grievance chatbot repository
(`dbmanager.py`, `rag_chatbot.py`).

The store (`DatabaseManager`) is embedded as a pure state-passing model:
the SQLite database becomes a `DB` value holding the `grievances` and
`temp_chat_sessions` tables as lists of records, each SQL statement becomes
the corresponding pure transformation, and every Python function that can
raise returns its result in `Except String`.  Because SQLite commits each
statement separately here (each helper opens its own connection), mutating
operations return `DB × Except String α`: the returned state keeps the
writes that committed before an exception was raised.

Environmental aspects are modelled as explicit inputs:
  * `random.choices(string.digits, k=6)` — the six generated digit
    characters are a `digits : String` argument;
  * `datetime.now().isoformat()` / `CURRENT_TIMESTAMP` — a `now : String`
    argument;
  * engine-level `sqlite3.Error` faults — a `fault : Bool` argument on the
    write helper where a claim depends on storage failure;
  * the Gemini calls (`analyze_intent` classification, RAG answers) — an
    `Oracles` record of black-box functions.

The `LIKE '%"session_id": "<sid>"%'` checks are modelled faithfully:
chat histories are serialized exactly as `json.dumps` prints them
(ASCII-escaped, `", "` / `": "` separators, insertion-ordered keys) and the
pattern is matched with SQLite's default `LIKE` semantics — ASCII-case-
insensitive, with `%` matching any run and `_` any single character, and
no ESCAPE clause, so wildcards inside the verbatim-interpolated session id
(and the `_` of the key `session_id` itself) stay wildcards.
-/

namespace GrievanceBot

/-! ### String utilities: substring search (SQL LIKE `%x%`) -/

/-- `strHasPre p s`: the char list `p` is an initial segment of `s`. -/
def strHasPre : List Char → List Char → Bool
  | [], _ => true
  | _ :: _, [] => false
  | a :: as, b :: bs => a == b && strHasPre as bs

/-- `strHasSub p s`: the char list `p` occurs contiguously inside `s`. -/
def strHasSub (p : List Char) : List Char → Bool
  | [] => strHasPre p []
  | c :: t => strHasPre p (c :: t) || strHasSub p t

/-- `anySuffix f t`: `f` holds of some suffix of `t` (including `t` itself
and `[]`). -/
def anySuffix (f : List Char → Bool) : List Char → Bool
  | [] => f []
  | c :: ts => f (c :: ts) || anySuffix f ts

/-- SQLite `LIKE` pattern matching (the queries use no ESCAPE clause):
`%` matches any run of zero or more characters, `_` matches exactly one
character, and every other pattern character matches itself
ASCII-case-insensitively (SQLite folds only ASCII letters by default). -/
def likeMatch : List Char → List Char → Bool
  | [], t => t.isEmpty
  | p :: ps, t =>
    if p = '%' then anySuffix (likeMatch ps) t
    else
      match t with
      | [] => false
      | c :: ts =>
        if p = '_' then likeMatch ps ts
        else (p.toLower == c.toLower) && likeMatch ps ts

/-- SQLite `text LIKE '%' || p || '%'`.  The body `p` is matched with full
LIKE semantics: any `%`/`_` inside it act as wildcards — the session id is
interpolated into the pattern verbatim, and the key `session_id` itself
contains an `_` that matches any single character. -/
def likeContains (p text : String) : Bool :=
  likeMatch ('%' :: (p.data ++ ['%'])) text.data

/-! ### JSON serialization as `json.dumps` produces it -/

def hexDigit (n : Nat) : Char :=
  if n < 10 then Char.ofNat (48 + n) else Char.ofNat (87 + (n % 16))

/-- One character as `json.dumps` (default `ensure_ascii=True`) prints it
inside a string literal. -/
def escapeChar (c : Char) : List Char :=
  if c = '"' then ['\\', '"']
  else if c = '\\' then ['\\', '\\']
  else if c = '\n' then ['\\', 'n']
  else if c = '\t' then ['\\', 't']
  else if c = '\r' then ['\\', 'r']
  else if c.toNat = 8 then ['\\', 'b']
  else if c.toNat = 12 then ['\\', 'f']
  else if c.toNat < 32 || c.toNat > 126 then
    if c.toNat ≤ 65535 then
      ['\\', 'u', hexDigit (c.toNat / 4096 % 16), hexDigit (c.toNat / 256 % 16),
       hexDigit (c.toNat / 16 % 16), hexDigit (c.toNat % 16)]
    else
      let v := c.toNat - 65536
      let hi := 55296 + v / 1024
      let lo := 56320 + v % 1024
      ['\\', 'u', hexDigit (hi / 4096 % 16), hexDigit (hi / 256 % 16),
       hexDigit (hi / 16 % 16), hexDigit (hi % 16),
       '\\', 'u', hexDigit (lo / 4096 % 16), hexDigit (lo / 256 % 16),
       hexDigit (lo / 16 % 16), hexDigit (lo % 16)]
  else [c]

def escapeJson (s : String) : String :=
  String.mk (s.data.map escapeChar).flatten

def jstr (s : String) : String :=
  "\"" ++ escapeJson s ++ "\""

/-! ### Data model: rows of the two tables -/

/-- One element of a stored `chat_history` JSON array
(`{'session_id': …, 'chat_text': …, 'timestamp': …, 'is_user': …}`). -/
structure ChatEntry where
  session_id : String
  chat_text : String
  timestamp : String
  is_user : Bool
deriving Repr, DecidableEq

/-- The `user_data` dict a session stores (keys `name`, `mobile`,
`complaint_details`, each optional). -/
structure UserData where
  name : Option String := none
  mobile : Option String := none
  complaint_details : Option String := none
deriving Repr, DecidableEq

def emptyUserData : UserData := {}

/-- A row of `temp_chat_sessions`.  `user_data`/`current_step` are nullable
columns (`none` = SQL NULL); `chat_history` is the decoded JSON array. -/
structure Session where
  session_id : String
  user_data : Option UserData
  current_step : Option String
  chat_history : List ChatEntry
  created_at : String
  updated_at : String
deriving Repr, DecidableEq

/-- A row of `grievances`. -/
structure Grievance where
  complaint_id : String
  name : String
  mobile : String
  complaint_details : String
  status : String
  chat_history : List ChatEntry
  created_at : String
  updated_at : String
deriving Repr, DecidableEq

/-- The database state (the `knowledge_base` table is static and not
touched by any claim). -/
structure DB where
  grievances : List Grievance
  sessions : List Session
deriving Repr, DecidableEq

/-- What `get_temp_chat_session` returns (NULL `user_data` decoded as `{}`). -/
structure SessionView where
  user_data : UserData
  current_step : Option String
  chat_history : List ChatEntry
deriving Repr, DecidableEq

/-- What `get_grievance_status` returns. -/
structure GrievanceView where
  complaint_id : String
  name : String
  status : String
  created_at : String
  updated_at : String
  chat_history : List ChatEntry
deriving Repr, DecidableEq

/-- `json.dumps` of one chat-entry dict: keys in insertion order,
separators `", "` and `": "`. -/
def serializeEntry (e : ChatEntry) : String :=
  "\x7b\"session_id\": " ++ jstr e.session_id ++
  ", \"chat_text\": " ++ jstr e.chat_text ++
  ", \"timestamp\": " ++ jstr e.timestamp ++
  ", \"is_user\": " ++ (if e.is_user then "true" else "false") ++ "\x7d"

def joinEntries : List ChatEntry → String
  | [] => ""
  | [e] => serializeEntry e
  | e :: (e' :: r) => serializeEntry e ++ ", " ++ joinEntries (e' :: r)

/-- `json.dumps(chat_history)` for a whole history. -/
def serializeHistory (h : List ChatEntry) : String :=
  "[" ++ joinEntries h ++ "]"

/-- The f-string pattern body `"session_id": "<sid>"` used between the `%`
wildcards in the LIKE queries (the session id inserted verbatim). -/
def sessionPat (sid : String) : String :=
  "\"session_id\": \"" ++ sid ++ "\""

/-! ### Record store operations (`DatabaseManager`) -/

/-- Python truthiness for an optional string argument with default `None`
(`if complaint_id:` / `if session_id:` treat `""` like `None`). -/
def truthy : Option String → Option String
  | some s => if s == "" then none else some s
  | none => none

/-- `SELECT … FROM temp_chat_sessions WHERE session_id = ?` (first row). -/
def findSession (db : DB) (sid : String) : Option Session :=
  db.sessions.find? (fun s => s.session_id == sid)

/-- `INSERT OR REPLACE INTO temp_chat_sessions …`: SQLite deletes any row
with the conflicting UNIQUE `session_id` and inserts the new row (at a new
rowid, hence at the end); columns not named in the INSERT take their
defaults (`NULL`, `'[]'`, `CURRENT_TIMESTAMP`). -/
def upsertSession (db : DB) (row : Session) : DB :=
  ⟨db.grievances, db.sessions.filter (fun s => s.session_id != row.session_id) ++ [row]⟩

/-- `_add_to_temp_session_chat_history`: read the session's current history
(absent row → `[]`), append the entry, then INSERT OR REPLACE naming only
`session_id, chat_history, updated_at` — so `user_data` and `current_step`
become NULL and `created_at` the current timestamp. -/
def add_to_temp_session_chat_history (db : DB) (sid : String) (entry : ChatEntry)
    (now : String) : DB :=
  let hist := match findSession db sid with
    | some s => s.chat_history
    | none => []
  upsertSession db ⟨sid, none, none, hist ++ [entry], now, now⟩

/-- `_add_to_complaint_chat_history`: read the complaint's history, append,
`UPDATE grievances SET chat_history = ?, updated_at = CURRENT_TIMESTAMP
WHERE complaint_id = ?`.  A missing complaint raises `ValueError`; `fault`
injects an engine-level `sqlite3.Error` on the UPDATE, which the function
re-raises as `RuntimeError` with nothing committed. -/
def add_to_complaint_chat_history (db : DB) (cid : String) (entry : ChatEntry)
    (fault : Bool) (now : String) : DB × Except String Unit :=
  match db.grievances.find? (fun g => g.complaint_id == cid) with
  | some g =>
    if fault then (db, .error "Database error adding to complaint chat")
    else
      let h := g.chat_history ++ [entry]
      (⟨db.grievances.map (fun g' =>
          if g'.complaint_id == cid then { g' with chat_history := h, updated_at := now } else g'),
        db.sessions⟩, .ok ())
  | none => (db, .error ("Complaint " ++ cid ++ " not found"))

/-- `_is_session_already_used`:
`SELECT COUNT(*) FROM grievances WHERE chat_history LIKE '%"session_id": "<sid>"%'`
is nonzero. -/
def is_session_already_used (db : DB) (sid : String) : Bool :=
  db.grievances.any (fun g => likeContains (sessionPat sid) (serializeHistory g.chat_history))

/-- `_can_session_be_added_to_complaint`: allowed when the target complaint
already holds an entry with exactly this `session_id` (Python `==` on the
decoded entries), otherwise allowed only when no *other* complaint's stored
history matches the LIKE pattern. -/
def can_session_be_added_to_complaint (db : DB) (sid cid : String) : Bool :=
  let inThis := match db.grievances.find? (fun g => g.complaint_id == cid) with
    | some g => g.chat_history.any (fun e => e.session_id == sid)
    | none => false
  if inThis then true
  else
    !(db.grievances.any (fun g =>
        g.complaint_id != cid && likeContains (sessionPat sid) (serializeHistory g.chat_history)))

/-- `add_chat_message`: build the entry (`User:`/`Bot:` tag baked into the
text), then route to the complaint history (after the exclusivity check) or
to the temporary session history. -/
def add_chat_message (db : DB) (session_id message : String) (is_user : Bool)
    (complaint_id : Option String) (fault : Bool) (now : String) : DB × Except String Unit :=
  if session_id == "" || message == "" then
    (db, .error "Failed to add chat message: Session ID and message are required")
  else
    let entry : ChatEntry :=
      ⟨session_id, (if is_user then "User: " else "Bot: ") ++ message, now, is_user⟩
    match truthy complaint_id with
    | some cid =>
      if !(can_session_be_added_to_complaint db session_id cid) then
        (db, .error ("Failed to add chat message: Session ID " ++ session_id ++
          " cannot be added to complaint " ++ cid ++ " - already associated with another complaint"))
      else add_to_complaint_chat_history db cid entry fault now
    | none => (add_to_temp_session_chat_history db session_id entry now, .ok ())

/-- `get_temp_chat_session` (also `get_chat_session`): NULL `user_data`
decodes to `{}`; `current_step` is returned as stored (possibly NULL). -/
def get_temp_chat_session (db : DB) (session_id : String) : Option SessionView :=
  if session_id == "" then none
  else match findSession db session_id with
    | some s => some ⟨s.user_data.getD emptyUserData, s.current_step, s.chat_history⟩
    | none => none

def get_chat_session (db : DB) (session_id : String) : Option SessionView :=
  get_temp_chat_session db session_id

/-- `delete_temp_chat_session`: `DELETE FROM temp_chat_sessions WHERE
session_id = ?` (idempotent, no error when absent). -/
def delete_temp_chat_session (db : DB) (session_id : String) : DB :=
  if session_id == "" then db
  else ⟨db.grievances, db.sessions.filter (fun s => s.session_id != session_id)⟩

/-- `update_chat_session`: INSERT OR REPLACE naming only `session_id,
user_data, current_step, updated_at` — `chat_history` takes its column
default `'[]'` and `created_at` the current timestamp, because REPLACE
removes the old row. -/
def update_chat_session (db : DB) (session_id : String) (user_data : UserData)
    (current_step : Option String) (now : String) : DB × Except String Unit :=
  if session_id == "" then (db, .error "Session ID is required")
  else (upsertSession db ⟨session_id, some user_data, current_step, [], now, now⟩, .ok ())

/-- `register_grievance`: generate `GRV` + six digit characters
(`digits` models the `random.choices` output), optionally check the session
LIKE guard and copy the temp session history, append the synthetic system
entry, INSERT the complaint row (`status` takes its column default
`'Submitted'`; a duplicate `complaint_id` violates UNIQUE and raises), then
delete the source session. -/
def register_grievance (db : DB) (name mobile complaint_details : String)
    (session_id : Option String) (digits now : String) : DB × Except String String :=
  if name == "" || mobile == "" || complaint_details == "" then
    (db, .error "Name, mobile, and complaint details are required")
  else
    let complaint_id := "GRV" ++ digits
    match truthy session_id with
    | some s =>
      if is_session_already_used db s then
        (db, .error ("Session ID " ++ s ++ " is already associated with another complaint"))
      else
        let hist := match get_temp_chat_session db s with
          | some t => if t.chat_history == [] then [] else t.chat_history
          | none => []
        let regEntry : ChatEntry :=
          ⟨s, "System: Complaint registered successfully with ID " ++ complaint_id, now, false⟩
        if db.grievances.any (fun g => g.complaint_id == complaint_id) then
          (db, .error "Database error registering grievance: UNIQUE constraint failed")
        else
          let g : Grievance :=
            ⟨complaint_id, name, mobile, complaint_details, "Submitted", hist ++ [regEntry], now, now⟩
          (delete_temp_chat_session ⟨db.grievances ++ [g], db.sessions⟩ s, .ok complaint_id)
    | none =>
      let regEntry : ChatEntry :=
        ⟨"system", "System: Complaint registered successfully with ID " ++ complaint_id, now, false⟩
      if db.grievances.any (fun g => g.complaint_id == complaint_id) then
        (db, .error "Database error registering grievance: UNIQUE constraint failed")
      else
        let g : Grievance :=
          ⟨complaint_id, name, mobile, complaint_details, "Submitted", [regEntry], now, now⟩
        (⟨db.grievances ++ [g], db.sessions⟩, .ok complaint_id)

def toGrievanceView (g : Grievance) : GrievanceView :=
  ⟨g.complaint_id, g.name, g.status, g.created_at, g.updated_at, g.chat_history⟩

/-- `ORDER BY created_at DESC LIMIT 1` over the rows matching a mobile
number: a row with the lexicographically greatest `created_at`
(`CURRENT_TIMESTAMP` strings compare chronologically); among equal
timestamps the earliest row is kept. -/
def latestByCreated : List Grievance → Option Grievance :=
  List.foldl (fun acc g =>
    match acc with
    | none => some g
    | some a => if a.created_at < g.created_at then some g else some a) none

/-- `get_grievance_status`: with neither selector (or falsy selectors) it
returns `None`; by id it returns the first row with that `complaint_id`;
by mobile the most recently created matching row. -/
def get_grievance_status (db : DB) (complaint_id mobile : Option String) :
    Option GrievanceView :=
  match truthy complaint_id, truthy mobile with
  | none, none => none
  | some cid, _ => (db.grievances.find? (fun g => g.complaint_id == cid)).map toGrievanceView
  | none, some mb => (latestByCreated (db.grievances.filter (fun g => g.mobile == mb))).map toGrievanceView

/-- `update_grievance_status`: validate, `UPDATE grievances SET status = ?,
updated_at = CURRENT_TIMESTAMP WHERE complaint_id = ?` and commit
(`faultStatus` injects a `sqlite3.Error` there, caught and re-raised as
`RuntimeError` with nothing committed; zero rows updated raises
`ValueError`); then, when a note is given, append the system entry in a
separate transaction via `_add_to_complaint_chat_history` (`faultNote`
injects its failure).  A `RuntimeError`/`ValueError` from that second step
is not caught by the surrounding `except sqlite3.Error` and so propagates
to the caller while the committed status write stands. -/
def update_grievance_status (db : DB) (complaint_id new_status : String)
    (update_message : Option String) (faultStatus faultNote : Bool) (now : String) :
    DB × Except String Unit :=
  if complaint_id == "" || new_status == "" then
    (db, .error "Complaint ID and new status are required")
  else if faultStatus then (db, .error "Database error updating grievance status")
  else if !(db.grievances.any (fun g => g.complaint_id == complaint_id)) then
    (db, .error ("Complaint " ++ complaint_id ++ " not found"))
  else
    let db1 : DB :=
      ⟨db.grievances.map (fun g =>
          if g.complaint_id == complaint_id then { g with status := new_status, updated_at := now } else g),
        db.sessions⟩
    match truthy update_message with
    | some m =>
      add_to_complaint_chat_history db1 complaint_id ⟨"system", "System: " ++ m, now, false⟩ faultNote now
    | none => (db1, .ok ())

/-! ### Conversation engine (`GrievanceChatbot`): pure extractors

ASCII reading of Python's character classes: `\d` as `0-9`, `\s` as
`[ \t\n\r\x0b\x0c]`, `str.isalpha` as ASCII letters. -/

def isDigitChar (c : Char) : Bool := 48 ≤ c.toNat && c.toNat ≤ 57

def isHiDigit (c : Char) : Bool := 54 ≤ c.toNat && c.toNat ≤ 57

def isPyWs (c : Char) : Bool :=
  c.toNat == 32 || c.toNat == 9 || c.toNat == 10 || c.toNat == 13 ||
  c.toNat == 11 || c.toNat == 12

/-- The `[\s-]` class of the mobile regex. -/
def isSepChar (c : Char) : Bool := isPyWs c || c.toNat == 45

/-- `[6-9]\d{9}` anchored at the head: the ten matched characters. -/
def matchCore : List Char → Option (List Char)
  | [] => none
  | c :: cs =>
    if isHiDigit c && (cs.take 9).length == 9 && (cs.take 9).all isDigitChar then
      some (c :: cs.take 9)
    else none

/-- `[\s-]?[6-9]\d{9}` anchored at the head: greedy `?` tries the separator
first and backtracks to the bare core. -/
def matchSepCore (cs : List Char) : Option (List Char) :=
  match cs with
  | c :: rest =>
    if isSepChar c then
      match matchCore rest with
      | some m => some (c :: m)
      | none => matchCore cs
    else matchCore cs
  | [] => matchCore []

def tryPlusPre (cs : List Char) : Option (List Char) :=
  match cs with
  | '+' :: '9' :: '1' :: rest => (matchSepCore rest).map (fun m => '+' :: '9' :: '1' :: m)
  | _ => none

def tryNinetyOnePre (cs : List Char) : Option (List Char) :=
  match cs with
  | '9' :: '1' :: rest => (matchSepCore rest).map (fun m => '9' :: '1' :: m)
  | _ => none

/-- `(\+91|91)?[\s-]?[6-9]\d{9}` anchored at the head, alternatives in the
regex engine's order (`\+91`, then `91`, then no group). -/
def matchPreSepCore (cs : List Char) : Option (List Char) :=
  match tryPlusPre cs with
  | some m => some m
  | none =>
    match tryNinetyOnePre cs with
    | some m => some m
    | none => matchSepCore cs

/-- `re.search`: the leftmost position where the pattern matches. -/
def searchMobile : List Char → Option (List Char)
  | [] => matchPreSepCore []
  | c :: rest =>
    match matchPreSepCore (c :: rest) with
    | some m => some m
    | none => searchMobile rest

/-- `extract_info_from_message(message, 'mobile')`: search the pattern,
strip non-digits from the match (`re.sub(r'[^\d]', '', …)`), accept a bare
10-digit number or a 12-digit one with the `91` prefix stripped. -/
def extract_mobile (message : String) : Option String :=
  match searchMobile message.data with
  | some m =>
    let mobile := m.filter isDigitChar
    if mobile.length == 10 then some (String.mk mobile)
    else if mobile.length == 12 && mobile.take 2 == ['9', '1'] then
      some (String.mk (mobile.drop 2))
    else none
  | none => none

/-- `str.strip()` with the default whitespace set. -/
def pyStrip (cs : List Char) : List Char :=
  ((cs.dropWhile isPyWs).reverse.dropWhile isPyWs).reverse

/-- `str.split()` with no argument: split on whitespace runs, no empties. -/
def pySplitGo : List Char → List Char → List (List Char)
  | acc, [] => if acc == [] then [] else [acc.reverse]
  | acc, c :: cs =>
    if isPyWs c then
      if acc == [] then pySplitGo [] cs else acc.reverse :: pySplitGo [] cs
    else pySplitGo (c :: acc) cs

def pySplit (cs : List Char) : List (List Char) := pySplitGo [] cs

/-- `str.title()` (ASCII): a letter is uppercased after a non-letter and
lowercased after a letter; other characters pass through. -/
def pyTitleGo : Bool → List Char → List Char
  | _, [] => []
  | prevAlpha, c :: cs =>
    (if c.isAlpha then (if prevAlpha then c.toLower else c.toUpper) else c) ::
      pyTitleGo c.isAlpha cs

/-- `extract_info_from_message(message, 'name')`: strip, require 1–4
whitespace-separated all-alphabetic words, return the stripped message
title-cased. -/
def extract_name (message : String) : Option String :=
  let t := pyStrip message.data
  let parts := pySplit t
  if parts.all (fun w => w.all Char.isAlpha) && decide (1 ≤ parts.length) &&
      decide (parts.length ≤ 4) then
    some (String.mk (pyTitleGo false t))
  else none

/-- `[Gg][Rr][Vv]\d{6}` anchored at the head: the nine matched characters. -/
def matchGrv : List Char → Option (List Char)
  | g :: r :: v :: rest =>
    if (g == 'G' || g == 'g') && (r == 'R' || r == 'r') && (v == 'V' || v == 'v') &&
        (rest.take 6).length == 6 && (rest.take 6).all isDigitChar then
      some (g :: r :: v :: rest.take 6)
    else none
  | _ => none

def searchGrv : List Char → Option (List Char)
  | [] => none
  | c :: rest =>
    match matchGrv (c :: rest) with
    | some m => some m
    | none => searchGrv rest

/-- `extract_info_from_message(message, 'complaint_id')`: leftmost
`GRV`-pattern match, uppercased. -/
def extract_complaint_id (message : String) : Option String :=
  (searchGrv message.data).map (fun m => String.mk (m.map Char.toUpper))

/-- `extract_info_from_message` dispatching on `info_type`; any other type
falls through to `None`. -/
def extract_info_from_message (message info_type : String) : Option String :=
  if info_type == "mobile" then extract_mobile message
  else if info_type == "name" then extract_name message
  else if info_type == "complaint_id" then extract_complaint_id message
  else none

/-! ### Conversation engine: `process_message` -/

/-- The external Gemini collaborator, as black-box text functions:
`classify` is the raw text of the intent-classification response (or the
fallback label an API failure produces), `rag` the knowledge-augmented
answer `get_rag_response` returns for a query (or its canned apology). -/
structure Oracles where
  classify : String → String
  rag : String → String

/-- `analyze_intent`: `response.text.strip().lower()`, mapped to `general`
unless it is one of the three expected labels. -/
def analyze_intent (o : Oracles) (message : String) : String :=
  let intent := String.mk ((pyStrip (o.classify message).data).map Char.toLower)
  if intent == "register_complaint" || intent == "check_status" || intent == "general" then
    intent
  else "general"

def welcomeText : String :=
  "Hello! I'm your grievance management assistant. How can I help you today?\nPlease type 'register new complaint' to get started, or 'check status' to inquire about an existing one."

def chooseText : String :=
  "I can help you with two main things: registering a new complaint or checking the status of an existing one. Please tell me which one you'd like to do."

def namePromptText : String :=
  "I'll help you register your complaint. First, could you please provide your full name?"

def statusPromptText : String :=
  "To check your complaint status, please provide your complaint ID or the mobile number used during registration."

def mobilePromptText (n : String) : String :=
  "Thank you, " ++ n ++ ". Now, please provide your 10-digit mobile number."

def badNameText : String :=
  "That doesn't look like a valid name. Please provide your full name (e.g., John Doe)."

def detailsPromptText : String :=
  "Great! Now, please describe your complaint or issue in detail (e.g., 'My laptop screen is flickering, it started 3 days ago')."

def badMobileText : String := "Please provide a valid 10-digit mobile number."

def registeredText (cid : String) : String :=
  "Your complaint has been registered successfully!\n\nComplaint ID: " ++ cid ++
  "\n\nYou can use this ID to check the status of your complaint. We'll work on resolving your issue as soon as possible."

def registerErrorText (e : String) : String :=
  "I'm sorry, I encountered an error while trying to register your complaint: " ++ e ++
  ". Please try again."

def shortDetailsText : String :=
  "Please provide a more detailed description of your complaint (at least 10 characters)."

def statusFoundText (info : GrievanceView) : String :=
  "Your complaint (ID: " ++ info.complaint_id ++ ") is currently: " ++ info.status ++
  ". Registered by " ++ info.name ++ " on " ++ (info.created_at.take 10) ++ "."

def statusNotFoundText : String :=
  "I couldn't find any complaints with the provided ID or mobile number. Please double-check and try again, or you can choose to 'register new complaint'."

/-- The state dispatch of `process_message` (the body between logging the
user message and logging the bot response): returns the new database, the
response text, the user data and step to persist, and the
`is_complaint_registered` flag. -/
def dispatchStep (o : Oracles) (db : DB) (session_id message : String)
    (user_data : UserData) (current_step : Option String) (digits now : String) :
    DB × String × UserData × Option String × Bool :=
  if current_step == some "initial_choice" then
    let intent := analyze_intent o message
    if intent == "register_complaint" then
      (db, namePromptText, user_data, some "collecting_name", false)
    else if intent == "check_status" then
      (db, statusPromptText, user_data, some "collecting_complaint_id_or_mobile", false)
    else
      let response := o.rag message
      if strHasSub "I'm sorry".data response.data || strHasSub "try again".data response.data then
        (db, chooseText, user_data, some "initial_choice", false)
      else (db, response, user_data, some "initial_choice", false)
  else if current_step == some "collecting_name" then
    match extract_info_from_message message "name" with
    | some n => (db, mobilePromptText n, { user_data with name := some n },
        some "collecting_mobile", false)
    | none => (db, badNameText, user_data, some "collecting_name", false)
  else if current_step == some "collecting_mobile" then
    match extract_info_from_message message "mobile" with
    | some m => (db, detailsPromptText, { user_data with mobile := some m },
        some "collecting_complaint", false)
    | none => (db, badMobileText, user_data, some "collecting_mobile", false)
  else if current_step == some "collecting_complaint" then
    if decide (10 ≤ (pyStrip message.data).length) then
      -- `user_data['name']` / `user_data['mobile']` raise `KeyError` when
      -- absent; the surrounding `try` turns any exception into the error
      -- response with the state reset.
      match user_data.name, user_data.mobile with
      | some nm, some mb =>
        let (db', r) := register_grievance db nm mb message (some session_id) digits now
        match r with
        | .ok cid => (db', registeredText cid, emptyUserData, some "initial_choice", true)
        | .error e => (db', registerErrorText e, emptyUserData, some "initial_choice", false)
      | _, _ => (db, registerErrorText "KeyError", emptyUserData, some "initial_choice", false)
    else (db, shortDetailsText, user_data, some "collecting_complaint", false)
  else if current_step == some "collecting_complaint_id_or_mobile" then
    let cid := extract_info_from_message message "complaint_id"
    let mob := extract_info_from_message message "mobile"
    let status_info := match cid with
      | some c => get_grievance_status db (some c) none
      | none =>
        match mob with
        | some m => get_grievance_status db none (some m)
        | none => none
    let response := match status_info with
      | some info => statusFoundText info
      | none => statusNotFoundText
    (db, response, emptyUserData, some "initial_choice", false)
  else
    -- No branch matches (e.g. a NULL step): `response` stays `""` and the
    -- trailing bot-message insert will reject the empty message.
    (db, "", user_data, current_step, false)

/-- `process_message`: load or create the session (first contact returns
the welcome), log the user message, dispatch on the state, log the bot
response, persist `user_data`/`current_step`.  Exceptions raised by the
store propagate (only the registration call sits in a `try`), carrying the
state of whatever had already committed. -/
def process_message (o : Oracles) (db : DB) (session_id message : String)
    (digits now : String) : DB × Except String (String × Bool) :=
  match get_chat_session db session_id with
  | none =>
    let (db1, r) := update_chat_session db session_id emptyUserData (some "initial_choice") now
    match r with
    | .error e => (db1, .error e)
    | .ok _ => (db1, .ok (welcomeText, false))
  | some sess =>
    let (db1, r1) := add_chat_message db session_id message true none false now
    match r1 with
    | .error e => (db1, .error e)
    | .ok _ =>
      let (db2, response, ud', step', registered) :=
        dispatchStep o db1 session_id message sess.user_data sess.current_step digits now
      let (db3, r3) := add_chat_message db2 session_id response false none false now
      match r3 with
      | .error e => (db3, .error e)
      | .ok _ =>
        let (db4, r4) := update_chat_session db3 session_id ud' step' now
        match r4 with
        | .error e => (db4, .error e)
        | .ok _ => (db4, .ok (response, registered))

/-! ### Lemmas about substring search and serialized histories -/

theorem strHasPre_iff (p t : List Char) :
    strHasPre p t = true ↔ ∃ u, t = p ++ u := by
  induction p generalizing t with
  | nil => simp [strHasPre]
  | cons a as ih =>
    cases t with
    | nil => simp [strHasPre]
    | cons b bs =>
      simp only [strHasPre, Bool.and_eq_true, beq_iff_eq, ih, List.cons_append,
        List.cons.injEq]
      constructor
      · rintro ⟨rfl, u, rfl⟩
        exact ⟨u, rfl, rfl⟩
      · rintro ⟨u, rfl, rfl⟩
        exact ⟨rfl, u, rfl⟩

theorem strHasSub_iff (p t : List Char) :
    strHasSub p t = true ↔ ∃ s u, t = s ++ p ++ u := by
  induction t with
  | nil =>
    simp only [strHasSub, strHasPre_iff]
    constructor
    · rintro ⟨u, hu⟩
      exact ⟨[], u, by simpa using hu⟩
    · rintro ⟨s, u, hu⟩
      exact ⟨u, by rw [hu]; cases s <;> simp_all⟩
  | cons c t ih =>
    simp only [strHasSub, Bool.or_eq_true, strHasPre_iff, ih]
    constructor
    · rintro (⟨u, hu⟩ | ⟨s, u, hu⟩)
      · exact ⟨[], u, by simpa using hu⟩
      · exact ⟨c :: s, u, by simp [hu]⟩
    · rintro ⟨s, u, hu⟩
      cases s with
      | nil => exact Or.inl ⟨u, by simpa using hu⟩
      | cons c' s' =>
        simp only [List.cons_append, List.cons.injEq] at hu
        exact Or.inr ⟨s', u, hu.2⟩

theorem strHasSub_of_parts (p s u : List Char) :
    strHasSub p (s ++ p ++ u) = true :=
  (strHasSub_iff p _).mpr ⟨s, u, rfl⟩

theorem strHasSub_trans {p q r : List Char} (h1 : strHasSub p q = true)
    (h2 : strHasSub q r = true) : strHasSub p r = true := by
  obtain ⟨s1, u1, rfl⟩ := (strHasSub_iff p q).mp h1
  obtain ⟨s2, u2, rfl⟩ := (strHasSub_iff _ r).mp h2
  exact (strHasSub_iff p _).mpr ⟨s2 ++ s1, u1 ++ u2, by simp⟩

theorem strHasSub_extend {p q : List Char} (s u : List Char)
    (h : strHasSub p q = true) : strHasSub p (s ++ q ++ u) = true :=
  strHasSub_trans h (strHasSub_of_parts q s u)

/-- If `f` accepts `ts`, it accepts a suffix of `xs ++ ts`. -/
theorem anySuffix_append (f : List Char → Bool) (xs ts : List Char)
    (h : f ts = true) : anySuffix f (xs ++ ts) = true := by
  induction xs with
  | nil => cases ts <;> simp [anySuffix, h]
  | cons x xs ih => simp [anySuffix, ih]

/-- A leading `%` can consume any prefix of the text. -/
theorem likeMatch_pct_append (ps ts : List Char) (h : likeMatch ps ts = true)
    (xs : List Char) : likeMatch ('%' :: ps) (xs ++ ts) = true := by
  simpa [likeMatch] using anySuffix_append (likeMatch ps) xs ts h

/-- `%` alone matches any text. -/
theorem likeMatch_pct_nil (t : List Char) : likeMatch ['%'] t = true := by
  simpa using likeMatch_pct_append [] [] (by simp [likeMatch]) t

/-- A pattern body matches a literal occurrence of itself (each wildcard
can in particular match the character it is): `pat ++ ['%']` matches
`pat ++ u`. -/
theorem likeMatch_lit (pat : List Char) : ∀ u, likeMatch (pat ++ ['%']) (pat ++ u) = true := by
  induction pat with
  | nil =>
    intro u
    simpa using likeMatch_pct_nil u
  | cons p ps ih =>
    intro u
    by_cases hp : p = '%'
    · subst hp
      have h2 := likeMatch_pct_append (ps ++ ['%']) (ps ++ u) (ih u) []
      simp only [List.nil_append] at h2
      have h3 : anySuffix (likeMatch (ps ++ ['%'])) (ps ++ u) = true := by
        simpa [likeMatch] using h2
      simp [likeMatch, anySuffix, h3]
    · simp [likeMatch, hp, ih u]

/-- An entry's serialized form contains the `"session_id": "<sid>"` pattern
verbatim whenever the session id is untouched by JSON escaping. -/
theorem pat_sub_serializeEntry (e : ChatEntry) (S : String)
    (hS : e.session_id = S) (hesc : escapeJson S = S) :
    strHasSub (sessionPat S).data (serializeEntry e).data = true := by
  have hj : jstr S = "\"" ++ S ++ "\"" := by
    simp [jstr, hesc]
  have hdata : (serializeEntry e).data =
      "\x7b".data ++ (sessionPat S).data ++
      (", \"chat_text\": " ++ jstr e.chat_text ++ ", \"timestamp\": " ++
        jstr e.timestamp ++ ", \"is_user\": " ++
        (if e.is_user then "true" else "false") ++ "\x7d").data := by
    simp only [serializeEntry, sessionPat, hS, hj, String.data_append]
    simp [show "\x7b\"session_id\": ".data = "\x7b".data ++ "\"session_id\": \"".data.dropLast from rfl,
      show "\"session_id\": \"".data = "\"session_id\": ".data ++ ['\"'] from rfl]
  rw [hdata]
  exact strHasSub_of_parts _ _ _

/-- A member entry's serialized form occurs inside the joined entry list. -/
theorem serializeEntry_sub_joinEntries (h : List ChatEntry) (e : ChatEntry)
    (he : e ∈ h) :
    strHasSub (serializeEntry e).data (joinEntries h).data = true := by
  induction h with
  | nil => cases he
  | cons x r ih =>
    cases r with
    | nil =>
      rcases List.mem_cons.mp he with rfl | h'
      · simpa using strHasSub_of_parts (serializeEntry e).data [] []
      · cases h'
    | cons y r' =>
      rcases List.mem_cons.mp he with rfl | h'
      · have : (joinEntries (e :: y :: r')).data =
            [] ++ (serializeEntry e).data ++ (", " ++ joinEntries (y :: r')).data := by
          simp [joinEntries, String.data_append]
        rw [this]
        exact strHasSub_of_parts _ _ _
      · have hx := ih h'
        have : (joinEntries (x :: y :: r')).data =
            (serializeEntry x ++ ", ").data ++ (joinEntries (y :: r')).data ++ [] := by
          simp [joinEntries, String.data_append]
        rw [this]
        exact strHasSub_extend _ _ hx

/-- The SQL `LIKE '%"session_id": "<sid>"%'` test accepts any stored
history that actually holds an entry tagged with that session id, as long
as the id serializes to itself: the pattern body occurs literally in the
serialized history, and a literal occurrence always satisfies the
wildcard-and-case-insensitive LIKE match. -/
theorem likeContains_of_mem (h : List ChatEntry) (e : ChatEntry) (S : String)
    (he : e ∈ h) (hS : e.session_id = S) (hesc : escapeJson S = S) :
    likeContains (sessionPat S) (serializeHistory h) = true := by
  have h1 := pat_sub_serializeEntry e S hS hesc
  have h2 := serializeEntry_sub_joinEntries h e he
  have h3 : strHasSub (sessionPat S).data (serializeHistory h).data = true := by
    have : (serializeHistory h).data = "[".data ++ (joinEntries h).data ++ "]".data := by
      simp [serializeHistory, String.data_append]
    rw [this]
    exact strHasSub_extend _ _ (strHasSub_trans h1 h2)
  obtain ⟨s, u, hsu⟩ := (strHasSub_iff _ _).mp h3
  rw [likeContains, hsu]
  have h4 := likeMatch_pct_append ((sessionPat S).data ++ ['%'])
    ((sessionPat S).data ++ u) (likeMatch_lit (sessionPat S).data u) s
  simpa [List.append_assoc] using h4

/-! ### Lemmas about row lookup -/

theorem find?_append_singleton {α} (p : α → Bool) (l : List α) (x : α)
    (h : ∀ a ∈ l, p a = false) (hx : p x = true) :
    (l ++ [x]).find? p = some x := by
  induction l with
  | nil => simp [List.find?, hx]
  | cons a l ih =>
    have ha := h a (by simp)
    simp only [List.cons_append, List.find?, ha]
    exact ih (fun b hb => h b (by simp [hb]))

/-- After an INSERT OR REPLACE, looking the session up by id finds exactly
the new row. -/
theorem findSession_upsert (db : DB) (row : Session) :
    findSession (upsertSession db row) row.session_id = some row := by
  apply find?_append_singleton
  · intro a ha
    have := (List.mem_filter.mp ha).2
    simpa [bne] using this
  · simp

theorem find?_filter_ne (l : List Session) (sid : String) :
    (l.filter (fun s => s.session_id != sid)).find? (fun s => s.session_id == sid) = none := by
  rw [List.find?_eq_none]
  intro a ha
  have := (List.mem_filter.mp ha).2
  simpa [bne] using this

/-! ### Claim C7 — mobile extraction examples -/

/-- C7: mobile extraction is a pure function of the message with
`"call me at 9876543210" ↦ "9876543210"`, `"+91 9876543210" ↦ "9876543210"`
(prefix stripped), and `"12345" ↦ none`.  `extract_info_from_message` is a
pure function by construction; the three sample evaluations hold. -/
theorem mobile_extraction_examples :
    extract_info_from_message "call me at 9876543210" "mobile" = some "9876543210" ∧
    extract_info_from_message "+91 9876543210" "mobile" = some "9876543210" ∧
    extract_info_from_message "12345" "mobile" = none := by
  refine ⟨?_, ?_, ?_⟩ <;> rfl

/-! ### Claim C8 — `get_grievance_status` with no selector -/

def c8db : DB :=
  ⟨[⟨"GRV555555", "Eve", "9876501234", "stored complaint", "Submitted", [], "t0", "t0"⟩], []⟩

/-- C8 counterexample: called with neither selector on a store that does
hold a complaint, `get_grievance_status` returns the plain `None`
not-found result — it raises nothing (the early `return None` runs before
any query), contradicting the claimed `InvalidArgument` failure. -/
theorem get_status_no_selector_cex : get_grievance_status c8db none none = none := rfl

/-- C8 amended: with neither a complaint id nor a mobile number,
`get_grievance_status` returns `None` (the not-found result) instead of
failing, and — being a read of the store — has no side effect. -/
theorem get_status_no_selector (db : DB) : get_grievance_status db none none = none := rfl

/-! ### Claim C2 — `update_chat_session` and stored chat history -/

def c2session : Session :=
  ⟨"s1", some ⟨some "Al", none, none⟩, some "collecting_mobile",
    [⟨"s1", "User: hi", "t0", true⟩], "t0", "t0"⟩

def c2db : DB := ⟨[], [c2session]⟩

/-- C2 counterexample: for an existing session whose stored history is
nonempty, `update_chat_session` (the spec's `saveSession`) does not
preserve the chat history — reading the session immediately after the call
returns `[]` where it returned one entry immediately before, because the
INSERT OR REPLACE names only `session_id, user_data, current_step,
updated_at` and REPLACE resets `chat_history` to its column default. -/
theorem save_session_cex :
    (get_temp_chat_session
        (update_chat_session c2db "s1" ⟨some "Al", none, none⟩ (some "collecting_mobile") "t1").1
        "s1").map SessionView.chat_history ≠
      (get_temp_chat_session c2db "s1").map SessionView.chat_history := by
  decide

/-- C2 amended: for every existing session, `update_chat_session` replaces
the whole row: it stores the given `user_data` and `current_step` and
bumps `updated_at`, but resets the stored `chat_history` to the empty
column default, so a read immediately after the call returns `[]` as the
history regardless of what was stored before. -/
theorem save_session_resets_history (db : DB) (sid : String) (ud : UserData)
    (step now : String) (s : Session) (hsid : sid ≠ "")
    (hs : findSession db sid = some s) :
    update_chat_session db sid ud (some step) now =
      (⟨db.grievances, db.sessions.filter (fun r => r.session_id != sid) ++
          [⟨sid, some ud, some step, [], now, now⟩]⟩, .ok ()) ∧
    get_temp_chat_session (update_chat_session db sid ud (some step) now).1 sid =
      some ⟨ud, some step, []⟩ := by
  have hb : (sid == "") = false := by simpa using hsid
  have h1 : update_chat_session db sid ud (some step) now =
      (⟨db.grievances, db.sessions.filter (fun r => r.session_id != sid) ++
          [⟨sid, some ud, some step, [], now, now⟩]⟩, .ok ()) := by
    simp [update_chat_session, upsertSession, hb]
  refine ⟨h1, ?_⟩
  rw [h1]
  have h2 := findSession_upsert db ⟨sid, some ud, some step, [], now, now⟩
  simp only [upsertSession] at h2
  simp [get_temp_chat_session, hb, h2]

/-- C2 witness. -/
theorem save_session_resets_history_witness :
    update_chat_session c2db "s1" ⟨some "Al", none, none⟩ (some "collecting_mobile") "t1" =
      (⟨[], [⟨"s1", some ⟨some "Al", none, none⟩, some "collecting_mobile", [], "t1", "t1"⟩]⟩,
        .ok ()) ∧
    get_temp_chat_session
        (update_chat_session c2db "s1" ⟨some "Al", none, none⟩ (some "collecting_mobile") "t1").1
        "s1" =
      some ⟨⟨some "Al", none, none⟩, some "collecting_mobile", []⟩ := by
  have h := save_session_resets_history c2db "s1" ⟨some "Al", none, none⟩
    "collecting_mobile" "t1" c2session (by decide) (by decide)
  exact ⟨by rw [h.1]; rfl, h.2⟩

/-! ### Claim C9 — temp-session append wipes `user_data`/`current_step` -/

/-- C9: appending a chat message to an existing temporary session
(`add_chat_message` with no complaint id) resets the stored `user_data`
and `current_step` to NULL: the append is an INSERT OR REPLACE naming only
`session_id, chat_history, updated_at`, so the replaced row loses the
other columns; a subsequent `get_temp_chat_session` returns empty
`user_data` and no `current_step`, with only the history extended. -/
theorem temp_append_wipes_fields (db : DB) (sid msg now : String) (isU : Bool)
    (s : Session) (hsid : sid ≠ "") (hmsg : msg ≠ "")
    (hs : findSession db sid = some s) :
    add_chat_message db sid msg isU none false now =
      (⟨db.grievances, db.sessions.filter (fun r => r.session_id != sid) ++
          [⟨sid, none, none,
            s.chat_history ++ [⟨sid, (if isU then "User: " else "Bot: ") ++ msg, now, isU⟩],
            now, now⟩]⟩, .ok ()) ∧
    get_temp_chat_session (add_chat_message db sid msg isU none false now).1 sid =
      some ⟨emptyUserData, none,
        s.chat_history ++ [⟨sid, (if isU then "User: " else "Bot: ") ++ msg, now, isU⟩]⟩ := by
  have hbs : (sid == "") = false := by simpa using hsid
  have hbm : (msg == "") = false := by simpa using hmsg
  have h1 : add_chat_message db sid msg isU none false now =
      (⟨db.grievances, db.sessions.filter (fun r => r.session_id != sid) ++
          [⟨sid, none, none,
            s.chat_history ++ [⟨sid, (if isU then "User: " else "Bot: ") ++ msg, now, isU⟩],
            now, now⟩]⟩, .ok ()) := by
    simp [add_chat_message, hbs, hbm, truthy, add_to_temp_session_chat_history, hs,
      upsertSession]
  refine ⟨h1, ?_⟩
  rw [h1]
  have h2 := findSession_upsert db
    ⟨sid, none, none,
      s.chat_history ++ [⟨sid, (if isU then "User: " else "Bot: ") ++ msg, now, isU⟩], now, now⟩
  simp only [upsertSession] at h2
  simp [get_temp_chat_session, hbs, h2, emptyUserData]

/-- C9 witness. -/
theorem temp_append_wipes_fields_witness :
    add_chat_message c2db "s1" "more text" true none false "t2" =
      (⟨[], [⟨"s1", none, none,
          [⟨"s1", "User: hi", "t0", true⟩, ⟨"s1", "User: more text", "t2", true⟩],
          "t2", "t2"⟩]⟩, .ok ()) ∧
    get_temp_chat_session (add_chat_message c2db "s1" "more text" true none false "t2").1 "s1" =
      some ⟨emptyUserData, none,
        [⟨"s1", "User: hi", "t0", true⟩, ⟨"s1", "User: more text", "t2", true⟩]⟩ := by
  have h := temp_append_wipes_fields c2db "s1" "more text" "t2" true c2session
    (by decide) (by decide) (by decide)
  exact ⟨by rw [h.1]; rfl, by rw [h.2]; rfl⟩

instance {ε α : Type} [DecidableEq ε] [DecidableEq α] : DecidableEq (Except ε α) := fun x y =>
  match x, y with
  | .ok a, .ok b =>
    if h : a = b then isTrue (by rw [h]) else isFalse (by intro he; cases he; exact h rfl)
  | .error a, .error b =>
    if h : a = b then isTrue (by rw [h]) else isFalse (by intro he; cases he; exact h rfl)
  | .ok _, .error _ => isFalse (by intro he; cases he)
  | .error _, .ok _ => isFalse (by intro he; cases he)

/-! ### Claim C5 — direct registration round trip -/

/-- C5: for every valid `(name, mobile, details)` triple (and fresh random
digits), `register_grievance` returns `'GRV'` followed by the six digit
characters, and an immediate `get_grievance_status` by that id returns a
record with the same name and status `"Submitted"` (the column default the
INSERT leaves in place).  The full inserted row and returned view are
pinned down. -/
theorem register_direct_roundtrip (db : DB) (name mobile details digits now : String)
    (hn : name ≠ "") (hd : details ≠ "")
    (hm10 : mobile.data.length = 10) (hmd : mobile.data.all isDigitChar = true)
    (hd6 : digits.data.length = 6) (hdd : digits.data.all isDigitChar = true)
    (hfresh : ∀ g ∈ db.grievances, g.complaint_id ≠ "GRV" ++ digits) :
    register_grievance db name mobile details none digits now =
      (⟨db.grievances ++
          [⟨"GRV" ++ digits, name, mobile, details, "Submitted",
            [⟨"system", "System: Complaint registered successfully with ID " ++ ("GRV" ++ digits),
              now, false⟩], now, now⟩], db.sessions⟩,
        .ok ("GRV" ++ digits)) ∧
    ("GRV" ++ digits).data = 'G' :: 'R' :: 'V' :: digits.data ∧
    digits.data.length = 6 ∧ digits.data.all isDigitChar = true ∧
    get_grievance_status (register_grievance db name mobile details none digits now).1
        (some ("GRV" ++ digits)) none =
      some ⟨"GRV" ++ digits, name, "Submitted", now, now,
        [⟨"system", "System: Complaint registered successfully with ID " ++ ("GRV" ++ digits),
          now, false⟩]⟩ := by
  have hm : mobile ≠ "" := by
    intro h
    rw [h] at hm10
    simp at hm10
  have hbn : (name == "") = false := by simpa using hn
  have hbm : (mobile == "") = false := by simpa using hm
  have hbd : (details == "") = false := by simpa using hd
  have hdata : ("GRV" ++ digits).data = 'G' :: 'R' :: 'V' :: digits.data := by
    rw [String.data_append]
    rfl
  have hany : (db.grievances.any (fun g => g.complaint_id == "GRV" ++ digits)) = false := by
    rw [List.any_eq_false]
    intro g hg
    simpa using hfresh g hg
  have h1 : register_grievance db name mobile details none digits now =
      (⟨db.grievances ++
          [⟨"GRV" ++ digits, name, mobile, details, "Submitted",
            [⟨"system", "System: Complaint registered successfully with ID " ++ ("GRV" ++ digits),
              now, false⟩], now, now⟩], db.sessions⟩,
        .ok ("GRV" ++ digits)) := by
    simp [register_grievance, hbn, hbm, hbd, truthy, hany]
  refine ⟨h1, hdata, hd6, hdd, ?_⟩
  rw [h1]
  have hne : ("GRV" ++ digits) ≠ "" := by
    intro h
    have := congrArg String.data h
    rw [hdata] at this
    simp at this
  have hbne : ("GRV" ++ digits == "") = false := by simpa using hne
  have hfind : ((db.grievances ++
      [(⟨"GRV" ++ digits, name, mobile, details, "Submitted",
        [⟨"system", "System: Complaint registered successfully with ID " ++ ("GRV" ++ digits),
          now, false⟩], now, now⟩ : Grievance)]).find?
        (fun g => g.complaint_id == "GRV" ++ digits)) =
      some (⟨"GRV" ++ digits, name, mobile, details, "Submitted",
        [⟨"system", "System: Complaint registered successfully with ID " ++ ("GRV" ++ digits),
          now, false⟩], now, now⟩ : Grievance) := by
    apply find?_append_singleton
    · intro g hg
      simpa using hfresh g hg
    · simp
  simp only [get_grievance_status, truthy, hbne, Bool.false_eq_true, if_false, hfind]
  simp [toGrievanceView]

/-- C5 witness. -/
theorem register_direct_roundtrip_witness :
    register_grievance (⟨[], []⟩ : DB) "John Doe" "9876543210" "My laptop is broken" none "123456" "t1" =
      (⟨[⟨"GRV" ++ "123456", "John Doe", "9876543210", "My laptop is broken", "Submitted",
          [⟨"system", "System: Complaint registered successfully with ID " ++ ("GRV" ++ "123456"),
            "t1", false⟩], "t1", "t1"⟩], []⟩,
        .ok ("GRV" ++ "123456")) ∧
    ("GRV" ++ "123456" : String).data = 'G' :: 'R' :: 'V' :: ("123456" : String).data ∧
    ("123456" : String).data.length = 6 ∧ ("123456" : String).data.all isDigitChar = true ∧
    get_grievance_status
        (register_grievance (⟨[], []⟩ : DB) "John Doe" "9876543210" "My laptop is broken" none
          "123456" "t1").1 (some ("GRV" ++ "123456")) none =
      some ⟨"GRV" ++ "123456", "John Doe", "Submitted", "t1", "t1",
        [⟨"system", "System: Complaint registered successfully with ID " ++ ("GRV" ++ "123456"),
          "t1", false⟩]⟩ :=
  register_direct_roundtrip ⟨[], []⟩ "John Doe" "9876543210" "My laptop is broken" "123456" "t1"
    (by decide) (by decide) (by decide) (by decide) (by decide) (by decide)
    (by intro g hg; cases hg)

/-! ### Claim C6 — status update plus note are two separate writes -/

def c6db : DB :=
  ⟨[⟨"GRV111111", "Bob", "9876543210", "broken device", "Submitted", [], "t0", "t0"⟩], []⟩

/-- C6 counterexample: when the note-append fails after the status write
committed (engine fault injected on the second write), the status change
does stand — but the call returns the note-append failure to the caller
(`update_grievance_status` only catches `sqlite3.Error`, and the helper
re-raises `RuntimeError`), contradicting the claim that the failure "is
not reported as a failure of the status update to the caller". -/
theorem status_note_failure_reported_cex :
    (update_grievance_status c6db "GRV111111" "In Progress" (some "assigned to team")
        false true "t1").2 = .error "Database error adding to complaint chat" ∧
    (update_grievance_status c6db "GRV111111" "In Progress" (some "assigned to team")
        false true "t1").1.grievances.map Grievance.status = ["In Progress"] := by
  decide

/-- C6 amended: the operation is two separate writes — the status and
`updated_at` are committed first, and when the subsequent note-append
fails the committed status change stands (is not rolled back) but the
note-append error propagates to the caller as the result of the call. -/
theorem status_note_two_writes (db : DB) (cid st m now : String) (g : Grievance)
    (hg : g ∈ db.grievances) (hid : g.complaint_id = cid)
    (hc : cid ≠ "") (hs : st ≠ "") (hm : m ≠ "") :
    update_grievance_status db cid st (some m) false true now =
      (⟨db.grievances.map (fun g' =>
          if g'.complaint_id == cid then { g' with status := st, updated_at := now } else g'),
        db.sessions⟩,
       .error "Database error adding to complaint chat") := by
  have hbc : (cid == "") = false := by simpa using hc
  have hbs : (st == "") = false := by simpa using hs
  have hbm : (m == "") = false := by simpa using hm
  have hany : (db.grievances.any (fun g' => g'.complaint_id == cid)) = true :=
    List.any_eq_true.mpr ⟨g, hg, by simp [hid]⟩
  have hmem : { g with status := st, updated_at := now } ∈
      db.grievances.map (fun g' =>
        if g'.complaint_id == cid then { g' with status := st, updated_at := now } else g') := by
    refine List.mem_map.mpr ⟨g, hg, ?_⟩
    simp [hid]
  have hfind : ∃ g'', (db.grievances.map (fun g' =>
      if g'.complaint_id == cid then { g' with status := st, updated_at := now } else g')).find?
        (fun g' => g'.complaint_id == cid) = some g'' := by
    have : ((db.grievances.map (fun g' =>
        if g'.complaint_id == cid then { g' with status := st, updated_at := now } else g')).find?
          (fun g' => g'.complaint_id == cid)).isSome := by
      rw [List.find?_isSome]
      exact ⟨_, hmem, by simp [hid]⟩
    exact Option.isSome_iff_exists.mp this
  obtain ⟨g'', hg''⟩ := hfind
  have hstep : update_grievance_status db cid st (some m) false true now =
      add_to_complaint_chat_history
        ⟨db.grievances.map (fun g' =>
            if g'.complaint_id == cid then { g' with status := st, updated_at := now } else g'),
          db.sessions⟩ cid ⟨"system", "System: " ++ m, now, false⟩ true now := by
    simp [update_grievance_status, hbc, hbs, hany, truthy, hbm]
  rw [hstep]
  simp only [add_to_complaint_chat_history, hg'']
  simp

/-- C6 witness. -/
theorem status_note_two_writes_witness :
    update_grievance_status c6db "GRV111111" "Resolved" (some "done") false true "t2" =
      (⟨c6db.grievances.map (fun g' =>
          if g'.complaint_id == "GRV111111" then { g' with status := "Resolved", updated_at := "t2" } else g'),
        c6db.sessions⟩,
       .error "Database error adding to complaint chat") :=
  status_note_two_writes c6db "GRV111111" "Resolved" "done" "t2"
    ⟨"GRV111111", "Bob", "9876543210", "broken device", "Submitted", [], "t0", "t0"⟩
    (by decide) (by decide) (by decide) (by decide) (by decide)

/-! ### Claim C1 — session/complaint exclusivity on history append -/

def c1g1 : Grievance :=
  ⟨"GRV000001", "Ann", "9876543210", "first issue", "Submitted",
    [⟨"a\"b", "User: hi", "t0", true⟩], "t0", "t0"⟩

def c1g2 : Grievance :=
  ⟨"GRV000002", "Ben", "9123456780", "second issue", "Submitted", [], "t0", "t0"⟩

def c1db : DB := ⟨[c1g1, c1g2], []⟩

/-- C1 counterexample: for the session id `a"b` — tagged on an entry of
complaint `GRV000001` — appending a chat entry to the *other* complaint
`GRV000002` succeeds and extends its history, because the stored JSON
escapes the quote (`a\"b`) while the LIKE pattern interpolates the id
verbatim, so the guard sees no other complaint using the session.  The
claim requires this call to fail and leave `GRV000002` unchanged. -/
theorem session_exclusivity_cex :
    (add_chat_message c1db "a\"b" "hello there" true (some "GRV000002") false "t1").2 = .ok () ∧
    (add_chat_message c1db "a\"b" "hello there" true (some "GRV000002") false "t1").1.grievances.map
        (fun g => g.chat_history.length) = [1, 1] := by
  decide

/-- C1 amended: for every session id `S` that JSON serialization leaves
verbatim (no quotes, backslashes, control or non-ASCII characters) and not
yet tagged in `C2`'s history, if an entry tagged `S` is in `C1`'s history
then appending a chat entry for `S` to `C2` fails with the
session-conflict error and leaves the store unchanged, while appending a
further entry for `S` to `C1` itself succeeds and only extends `C1`'s
history. -/
theorem session_exclusivity (db : DB) (S C1id C2id msg now : String) (isU : Bool)
    (g1 g2 : Grievance) (e : ChatEntry)
    (hS : S ≠ "") (hmsg : msg ≠ "") (hesc : escapeJson S = S)
    (hC2 : C2id ≠ "") (hC1 : C1id ≠ "") (hne : C1id ≠ C2id)
    (hf1 : db.grievances.find? (fun g => g.complaint_id == C1id) = some g1)
    (hf2 : db.grievances.find? (fun g => g.complaint_id == C2id) = some g2)
    (he : e ∈ g1.chat_history) (heS : e.session_id = S)
    (hnot2 : ∀ e' ∈ g2.chat_history, e'.session_id ≠ S) :
    add_chat_message db S msg isU (some C2id) false now =
      (db, .error ("Failed to add chat message: Session ID " ++ S ++
        " cannot be added to complaint " ++ C2id ++
        " - already associated with another complaint")) ∧
    add_chat_message db S msg isU (some C1id) false now =
      (⟨db.grievances.map (fun g =>
          if g.complaint_id == C1id then
            { g with
              chat_history := g1.chat_history ++ [⟨S, (if isU then "User: " else "Bot: ") ++ msg, now, isU⟩]
              updated_at := now }
          else g), db.sessions⟩, .ok ()) := by
  have hbS : (S == "") = false := by simpa using hS
  have hbm : (msg == "") = false := by simpa using hmsg
  have hg1id : g1.complaint_id = C1id := by
    have := List.find?_some hf1
    simpa using this
  have hg1mem : g1 ∈ db.grievances := List.mem_of_find?_eq_some hf1
  constructor
  · -- append to C2 fails: the target holds no entry for S, but C1 matches
    -- the LIKE scan over the other complaints
    have hinThis : (g2.chat_history.any (fun e' => e'.session_id == S)) = false := by
      rw [List.any_eq_false]
      intro e' he'
      simpa using hnot2 e' he'
    have hothers : (db.grievances.any (fun g =>
        g.complaint_id != C2id &&
          likeContains (sessionPat S) (serializeHistory g.chat_history))) = true := by
      rw [List.any_eq_true]
      refine ⟨g1, hg1mem, ?_⟩
      rw [Bool.and_eq_true]
      constructor
      · rw [hg1id]
        simpa [bne] using hne
      · exact likeContains_of_mem g1.chat_history e S he heS hesc
    have hcan : can_session_be_added_to_complaint db S C2id = false := by
      simp [can_session_be_added_to_complaint, hf2, hinThis, hothers]
    simp [add_chat_message, hbS, hbm, truthy, hC2, hcan,
      show (C2id == "") = false by simpa using hC2]
  · -- append to C1 succeeds: C1 already holds an entry for S
    have hinThis : (g1.chat_history.any (fun e' => e'.session_id == S)) = true :=
      List.any_eq_true.mpr ⟨e, he, by simp [heS]⟩
    have hcan : can_session_be_added_to_complaint db S C1id = true := by
      simp [can_session_be_added_to_complaint, hf1, hinThis]
    simp [add_chat_message, hbS, hbm, truthy, hcan,
      show (C1id == "") = false by simpa using hC1,
      add_to_complaint_chat_history, hf1]

def c1cleanDb : DB :=
  ⟨[⟨"GRV000001", "Ann", "9876543210", "first issue", "Submitted",
      [⟨"sessA", "User: hi", "t0", true⟩], "t0", "t0"⟩,
    ⟨"GRV000002", "Ben", "9123456780", "second issue", "Submitted", [], "t0", "t0"⟩], []⟩

/-- C1 witness. -/
theorem session_exclusivity_witness :
    add_chat_message c1cleanDb "sessA" "hello there" true (some "GRV000002") false "t1" =
      (c1cleanDb, .error ("Failed to add chat message: Session ID " ++ "sessA" ++
        " cannot be added to complaint " ++ "GRV000002" ++
        " - already associated with another complaint")) ∧
    add_chat_message c1cleanDb "sessA" "hello there" true (some "GRV000001") false "t1" =
      (⟨c1cleanDb.grievances.map (fun g =>
          if g.complaint_id == "GRV000001" then
            { g with
              chat_history := [⟨"sessA", "User: hi", "t0", true⟩] ++ [⟨"sessA", (if true then "User: " else "Bot: ") ++ "hello there", "t1", true⟩]
              updated_at := "t1" }
          else g), c1cleanDb.sessions⟩, .ok ()) :=
  session_exclusivity c1cleanDb "sessA" "GRV000001" "GRV000002" "hello there" "t1" true
    ⟨"GRV000001", "Ann", "9876543210", "first issue", "Submitted",
      [⟨"sessA", "User: hi", "t0", true⟩], "t0", "t0"⟩
    ⟨"GRV000002", "Ben", "9123456780", "second issue", "Submitted", [], "t0", "t0"⟩
    ⟨"sessA", "User: hi", "t0", true⟩
    (by decide) (by decide) (by decide) (by decide) (by decide) (by decide)
    (by decide) (by decide) (by decide) (by decide) (by decide)

/-! ### Claim C3 — promotion of a session into a new complaint -/

def c3db : DB :=
  ⟨[⟨"GRV777777", "Cara", "9000000001", "old complaint", "Submitted",
      [⟨"ABC", "User: earlier", "t0", true⟩], "t0", "t0"⟩],
    [⟨"abc", some ⟨some "Dan", some "9111111111", none⟩, some "collecting_complaint",
      [⟨"abc", "User: my issue", "t1", true⟩], "t1", "t1"⟩]⟩

/-- C3 counterexample: session `abc` appears in no complaint's history
(only `ABC` does), so the claim requires registration with source session
`abc` to succeed and copy its history; but SQLite's `LIKE` is
ASCII-case-insensitive, the `_is_session_already_used` guard matches the
`ABC` entry, and the call fails creating nothing. -/
theorem promotion_cex :
    register_grievance c3db "Dan" "9111111111" "my new complaint text" (some "abc")
        "123456" "t2" =
      (c3db, .error "Session ID abc is already associated with another complaint") := by
  decide

/-- C3 amended: when some complaint's serialized history matches the SQL
LIKE pattern `%"session_id": "<sid>"%` — the session id interpolated
verbatim with no ESCAPE clause, so `%`/`_` in it (and the `_` of the key
`session_id`) act as wildcards and letters match ASCII-case-insensitively;
in particular whenever an entry tagged with an escape-clean id exists
anywhere — registration fails with the already-linked error and creates
nothing; when no stored history matches the pattern, the new complaint's
chat history equals the source session's accumulated chat history followed
by the one synthetic system entry, and the source session is deleted. -/
theorem promotion (db : DB) (S name mobile details digits now : String) (v : SessionView)
    (hS : S ≠ "") (hn : name ≠ "") (hm : mobile ≠ "") (hd : details ≠ "") :
    ((∃ g ∈ db.grievances, ∃ e ∈ g.chat_history, e.session_id = S) ∧ escapeJson S = S →
      register_grievance db name mobile details (some S) digits now =
        (db, .error ("Session ID " ++ S ++ " is already associated with another complaint"))) ∧
    ((∀ g ∈ db.grievances,
        likeContains (sessionPat S) (serializeHistory g.chat_history) = false) →
      get_temp_chat_session db S = some v →
      (∀ g ∈ db.grievances, g.complaint_id ≠ "GRV" ++ digits) →
      register_grievance db name mobile details (some S) digits now =
        (⟨db.grievances ++
            [⟨"GRV" ++ digits, name, mobile, details, "Submitted",
              v.chat_history ++
                [⟨S, "System: Complaint registered successfully with ID " ++ ("GRV" ++ digits),
                  now, false⟩], now, now⟩],
          db.sessions.filter (fun s => s.session_id != S)⟩, .ok ("GRV" ++ digits)) ∧
      get_temp_chat_session
          (register_grievance db name mobile details (some S) digits now).1 S = none) := by
  have hbS : (S == "") = false := by simpa using hS
  have hbn : (name == "") = false := by simpa using hn
  have hbm : (mobile == "") = false := by simpa using hm
  have hbd : (details == "") = false := by simpa using hd
  constructor
  · rintro ⟨⟨g, hg, e, he, heS⟩, hesc⟩
    have hused : is_session_already_used db S = true := by
      rw [is_session_already_used, List.any_eq_true]
      exact ⟨g, hg, likeContains_of_mem g.chat_history e S he heS hesc⟩
    simp [register_grievance, hbn, hbm, hbd, truthy, hbS, hused]
  · intro hno hv hfresh
    have hused : is_session_already_used db S = false := by
      rw [is_session_already_used, List.any_eq_false]
      intro g hg
      simp [hno g hg]
    have hany : (db.grievances.any (fun g => g.complaint_id == "GRV" ++ digits)) = false := by
      rw [List.any_eq_false]
      intro g hg
      simpa using hfresh g hg
    have h1 : register_grievance db name mobile details (some S) digits now =
        (⟨db.grievances ++
            [⟨"GRV" ++ digits, name, mobile, details, "Submitted",
              v.chat_history ++
                [⟨S, "System: Complaint registered successfully with ID " ++ ("GRV" ++ digits),
                  now, false⟩], now, now⟩],
          db.sessions.filter (fun s => s.session_id != S)⟩, .ok ("GRV" ++ digits)) := by
      by_cases hvc : v.chat_history = []
      · simp [register_grievance, hbn, hbm, hbd, truthy, hbS, hused, hv, hany,
          delete_temp_chat_session, hvc]
      · have hbvc : (v.chat_history == []) = false := by simpa using hvc
        simp [register_grievance, hbn, hbm, hbd, truthy, hbS, hused, hv, hany,
          delete_temp_chat_session, hbvc]
    refine ⟨h1, ?_⟩
    rw [h1]
    have h2 := find?_filter_ne db.sessions S
    simp only [get_temp_chat_session, findSession]
    rw [hbS]
    simp [h2]

def c3freshDb : DB :=
  ⟨[], [⟨"abc", some ⟨some "Dan", some "9111111111", none⟩, some "collecting_complaint",
    [⟨"abc", "User: my issue", "t1", true⟩], "t1", "t1"⟩]⟩

/-- C3 witness (both directions at concrete inputs). -/
theorem promotion_witness :
    register_grievance c3db "Cara" "9000000001" "another long complaint" (some "ABC")
        "654321" "t3" =
      (c3db, .error ("Session ID " ++ "ABC" ++ " is already associated with another complaint")) ∧
    (register_grievance c3freshDb "Dan" "9111111111" "my new complaint text" (some "abc")
        "123456" "t2" =
      (⟨[⟨"GRV" ++ "123456", "Dan", "9111111111", "my new complaint text", "Submitted",
          [⟨"abc", "User: my issue", "t1", true⟩] ++
            [⟨"abc", "System: Complaint registered successfully with ID " ++ ("GRV" ++ "123456"),
              "t2", false⟩], "t2", "t2"⟩],
        c3freshDb.sessions.filter (fun s => s.session_id != "abc")⟩, .ok ("GRV" ++ "123456")) ∧
      get_temp_chat_session
        (register_grievance c3freshDb "Dan" "9111111111" "my new complaint text" (some "abc")
          "123456" "t2").1 "abc" = none) := by
  constructor
  · exact (promotion c3db "ABC" "Cara" "9000000001" "another long complaint" "654321" "t3"
      ⟨⟨some "Dan", some "9111111111", none⟩, some "collecting_complaint",
        [⟨"abc", "User: my issue", "t1", true⟩]⟩
      (by decide) (by decide) (by decide) (by decide)).1
      ⟨⟨⟨"GRV777777", "Cara", "9000000001", "old complaint", "Submitted",
          [⟨"ABC", "User: earlier", "t0", true⟩], "t0", "t0"⟩, by decide,
        ⟨"ABC", "User: earlier", "t0", true⟩, by decide, by decide⟩, by decide⟩
  · exact (promotion c3freshDb "abc" "Dan" "9111111111" "my new complaint text" "123456" "t2"
      ⟨⟨some "Dan", some "9111111111", none⟩, some "collecting_complaint",
        [⟨"abc", "User: my issue", "t1", true⟩]⟩
      (by decide) (by decide) (by decide) (by decide)).2
      (by intro g hg; cases hg) (by decide) (by intro g hg; cases hg)

/-! ### Claim C10 — every extracted mobile number starts with 6–9 -/

/-- The shape of a `[6-9]\d{9}` core match. -/
def coreShape (core : List Char) : Prop :=
  ∃ c r, core = c :: r ∧ isHiDigit c = true ∧ r.all isDigitChar = true ∧ r.length = 9

/-- The shape of a `[\s-]?`-prefixed core match. -/
def sepCoreShape (m : List Char) : Prop :=
  coreShape m ∨ ∃ s core, m = s :: core ∧ isSepChar s = true ∧ coreShape core

/-- The shape of a full `(\+91|91)?[\s-]?[6-9]\d{9}` match. -/
def fullShape (m : List Char) : Prop :=
  ∃ pre rest, m = pre ++ rest ∧
    (pre = [] ∨ pre = ['+', '9', '1'] ∨ pre = ['9', '1']) ∧ sepCoreShape rest

theorem hi_digit_is_digit (c : Char) (h : isHiDigit c = true) : isDigitChar c = true := by
  simp only [isHiDigit, isDigitChar, Bool.and_eq_true, decide_eq_true_eq] at h ⊢
  omega

theorem sep_not_digit (c : Char) (h : isSepChar c = true) : isDigitChar c = false := by
  simp only [isSepChar, isPyWs, Bool.or_eq_true, beq_iff_eq] at h
  rw [Bool.eq_false_iff]
  intro hdig
  simp only [isDigitChar, Bool.and_eq_true, decide_eq_true_eq] at hdig
  omega

theorem matchCore_shape {cs l : List Char} (h : matchCore cs = some l) : coreShape l := by
  cases cs with
  | nil => simp [matchCore] at h
  | cons c cs' =>
    simp only [matchCore] at h
    split at h
    · rename_i hcond
      simp only [Bool.and_eq_true, beq_iff_eq] at hcond
      obtain ⟨⟨h1, h2⟩, h3⟩ := hcond
      injection h with h
      exact ⟨c, cs'.take 9, h.symm, h1, h3, h2⟩
    · exact absurd h (by simp)

theorem matchSepCore_shape {cs m : List Char} (h : matchSepCore cs = some m) :
    sepCoreShape m := by
  cases cs with
  | nil => simp [matchSepCore, matchCore] at h
  | cons c rest =>
    simp only [matchSepCore] at h
    by_cases hsep : isSepChar c = true
    · rw [if_pos hsep] at h
      cases hm : matchCore rest with
      | some m' =>
        rw [hm] at h
        injection h with h
        exact Or.inr ⟨c, m', h.symm, hsep, matchCore_shape hm⟩
      | none =>
        rw [hm] at h
        exact Or.inl (matchCore_shape h)
    · rw [if_neg hsep] at h
      exact Or.inl (matchCore_shape h)

theorem tryPlusPre_shape {cs m : List Char} (h : tryPlusPre cs = some m) :
    ∃ m', m = '+' :: '9' :: '1' :: m' ∧ sepCoreShape m' := by
  unfold tryPlusPre at h
  split at h
  · rename_i rest
    cases hm : matchSepCore rest with
    | none => rw [hm] at h; simp at h
    | some mm =>
      rw [hm] at h
      simp only [Option.map_some'] at h
      injection h with h
      exact ⟨mm, h.symm, matchSepCore_shape hm⟩
  · exact absurd h (by simp)

theorem tryNinetyOnePre_shape {cs m : List Char} (h : tryNinetyOnePre cs = some m) :
    ∃ m', m = '9' :: '1' :: m' ∧ sepCoreShape m' := by
  unfold tryNinetyOnePre at h
  split at h
  · rename_i rest
    cases hm : matchSepCore rest with
    | none => rw [hm] at h; simp at h
    | some mm =>
      rw [hm] at h
      simp only [Option.map_some'] at h
      injection h with h
      exact ⟨mm, h.symm, matchSepCore_shape hm⟩
  · exact absurd h (by simp)

theorem matchPreSepCore_shape {cs m : List Char} (h : matchPreSepCore cs = some m) :
    fullShape m := by
  unfold matchPreSepCore at h
  cases hp : tryPlusPre cs with
  | some m1 =>
    rw [hp] at h
    injection h with h
    obtain ⟨m', rfl, hm'⟩ := tryPlusPre_shape hp
    exact ⟨['+', '9', '1'], m', by rw [← h]; simp, Or.inr (Or.inl rfl), hm'⟩
  | none =>
    rw [hp] at h
    cases hn : tryNinetyOnePre cs with
    | some m2 =>
      rw [hn] at h
      injection h with h
      obtain ⟨m', rfl, hm'⟩ := tryNinetyOnePre_shape hn
      exact ⟨['9', '1'], m', by rw [← h]; simp, Or.inr (Or.inr rfl), hm'⟩
    | none =>
      rw [hn] at h
      exact ⟨[], m, by simp, Or.inl rfl, matchSepCore_shape h⟩

theorem searchMobile_shape {cs m : List Char} (h : searchMobile cs = some m) :
    fullShape m := by
  induction cs with
  | nil => exact matchPreSepCore_shape h
  | cons c rest ih =>
    unfold searchMobile at h
    cases hp : matchPreSepCore (c :: rest) with
    | some m1 =>
      rw [hp] at h
      injection h with h
      rw [← h]
      exact matchPreSepCore_shape hp
    | none =>
      rw [hp] at h
      exact ih h

theorem coreShape_filter {core : List Char} (h : coreShape core) :
    core.filter isDigitChar = core ∧ core.length = 10 ∧
      ∃ c r, core = c :: r ∧ isHiDigit c = true := by
  obtain ⟨c, r, rfl, hc, hr, hlen⟩ := h
  have hcd : isDigitChar c = true := hi_digit_is_digit c hc
  have hrf : r.filter isDigitChar = r :=
    List.filter_eq_self.mpr (fun a ha => List.all_eq_true.mp hr a ha)
  refine ⟨by simp [hcd, hrf], by simp [hlen], c, r, rfl, hc⟩

theorem sepCoreShape_filter {m : List Char} (h : sepCoreShape m) :
    ∃ core, m.filter isDigitChar = core ∧ core.length = 10 ∧
      ∃ c r, core = c :: r ∧ isHiDigit c = true := by
  rcases h with h | ⟨s, core, rfl, hsep, hcore⟩
  · obtain ⟨hf, hl, hs⟩ := coreShape_filter h
    exact ⟨_, hf, hl, hs⟩
  · obtain ⟨hf, hl, hs⟩ := coreShape_filter hcore
    have : (s :: core).filter isDigitChar = core.filter isDigitChar := by
      simp [List.filter, sep_not_digit s hsep]
    rw [this, hf]
    exact ⟨core, rfl, hl, hs⟩

/-- C10: for every input string, mobile extraction returns a number only
when (after stripping any `+91`/`91` prefix) its first digit is 6–9 — the
returned string is ten characters whose head is in 6–9; and the 10-digit
string `"0123456789"` starting with 0 yields none. -/
theorem mobile_first_digit_range :
    (∀ s mo, extract_info_from_message s "mobile" = some mo →
      ∃ c r, mo.data = c :: r ∧ isHiDigit c = true ∧ mo.data.length = 10) ∧
    extract_info_from_message "0123456789" "mobile" = none := by
  constructor
  · intro s mo h
    have h' : extract_mobile s = some mo := by
      simpa [extract_info_from_message] using h
    unfold extract_mobile at h'
    cases hs : searchMobile s.data with
    | none => rw [hs] at h'; exact absurd h' (by simp)
    | some m =>
      rw [hs] at h'
      obtain ⟨pre, rest, rfl, hpre, hrest⟩ := searchMobile_shape hs
      obtain ⟨core, hfil, hlen, c, r, rfl, hc⟩ := sepCoreShape_filter hrest
      have hfilapp : (pre ++ rest).filter isDigitChar =
          pre.filter isDigitChar ++ (c :: r) := by
        rw [List.filter_append, hfil]
      rcases hpre with rfl | rfl | rfl
      · simp only [hfilapp] at h'
        simp only [List.filter] at h'
        rw [show (List.nil ++ (c :: r) : List Char) = c :: r from rfl] at h'
        rw [show ((c :: r).length == 10) = true by simp [hlen]] at h'
        simp only [if_true] at h'
        injection h' with h'
        refine ⟨c, r, by rw [← h'], hc, by rw [← h']; exact hlen⟩
      · simp only [hfilapp] at h'
        rw [show (['+', '9', '1'].filter isDigitChar) = ['9', '1'] from rfl] at h'
        have hr9 : r.length = 9 := by simpa using hlen
        rw [show ((['9', '1'] ++ (c :: r)).length == 10) = false by simp [hr9]] at h'
        simp only [Bool.false_eq_true, if_false] at h'
        rw [show ((['9', '1'] ++ (c :: r)).length == 12) = true by simp [hr9]] at h'
        rw [show ((['9', '1'] ++ (c :: r)).take 2 == ['9', '1']) = true from by simp] at h'
        simp only [Bool.true_and, if_true] at h'
        rw [show (['9', '1'] ++ (c :: r)).drop 2 = c :: r from rfl] at h'
        injection h' with h'
        refine ⟨c, r, by rw [← h'], hc, by rw [← h']; exact hlen⟩
      · simp only [hfilapp] at h'
        rw [show (['9', '1'].filter isDigitChar) = ['9', '1'] from rfl] at h'
        have hr9 : r.length = 9 := by simpa using hlen
        rw [show ((['9', '1'] ++ (c :: r)).length == 10) = false by simp [hr9]] at h'
        simp only [Bool.false_eq_true, if_false] at h'
        rw [show ((['9', '1'] ++ (c :: r)).length == 12) = true by simp [hr9]] at h'
        rw [show ((['9', '1'] ++ (c :: r)).take 2 == ['9', '1']) = true from by simp] at h'
        simp only [Bool.true_and, if_true] at h'
        rw [show (['9', '1'] ++ (c :: r)).drop 2 = c :: r from rfl] at h'
        injection h' with h'
        refine ⟨c, r, by rw [← h'], hc, by rw [← h']; exact hlen⟩
  · rfl

/-- C10 witness. -/
theorem mobile_first_digit_range_witness :
    ∃ c r, ("9876543210" : String).data = c :: r ∧ isHiDigit c = true ∧
      ("9876543210" : String).data.length = 10 :=
  mobile_first_digit_range.1 "call me at 9876543210" "9876543210" (by rfl)

/-! ### Claim C4 — state-machine round trip -/

/-- A concrete classifier/responder: classifies the one registration
request as `register_complaint` and everything else as `general`; RAG
answers with a fixed informational sentence (no apology markers). -/
def c4oracle : Oracles :=
  ⟨fun m => if m == "I want to register a new complaint" then "register_complaint" else "general",
   fun _ => "Our grievance desk helps you file and track complaints."⟩

/-- C4 counterexample: feeding exactly the four utterances
`[register-classified text, valid name, valid mobile, ≥10-char details]`
to a fresh (non-existent) session registers nothing: the first call only
creates the session and returns the fixed welcome without classifying the
utterance, so the remaining three calls are processed one state too early
and the last call returns `didRegisterComplaint = false` with no
complaint stored — the claim requires `true` and a `GRV` id. -/
theorem round_trip_cex :
    (let p1 := process_message c4oracle ⟨[], []⟩ "sess1"
        "I want to register a new complaint" "111111" "t1"
     let p2 := process_message c4oracle p1.1 "sess1" "John Doe" "222222" "t2"
     let p3 := process_message c4oracle p2.1 "sess1" "9876543210" "333333" "t3"
     let p4 := process_message c4oracle p3.1 "sess1" "My laptop is broken badly" "444444" "t4"
     p4.2 = .ok ("Our grievance desk helps you file and track complaints.", false) ∧
       p4.1.grievances = []) := by
  decide

/-- First contact with an unknown session: the message is not processed;
the session is created at `initial_choice` and the fixed welcome returned. -/
theorem process_message_fresh (o : Oracles) (db : DB) (sid m d t : String)
    (hsid : sid ≠ "") (h : findSession db sid = none) :
    process_message o db sid m d t =
      (⟨db.grievances, db.sessions.filter (fun s => s.session_id != sid) ++
          [⟨sid, some emptyUserData, some "initial_choice", [], t, t⟩]⟩,
        .ok (welcomeText, false)) := by
  have hb : (sid == "") = false := by simpa using hsid
  simp [process_message, get_chat_session, get_temp_chat_session, hb, h,
    update_chat_session, upsertSession]

/-- A turn of `process_message` on a single-session store whose dispatch
leaves the store untouched: the user and bot entries are appended to the
session history in between, but the closing `update_chat_session` REPLACE
resets the row to the dispatched `user_data`/`current_step` with an empty
history. -/
theorem process_message_steady (o : Oracles) (gs : List Grievance) (sid m d t : String)
    (ud0 : UserData) (st0 : Option String) (hist : List ChatEntry) (c0 u0 : String)
    (resp : String) (ud' : UserData) (step' : Option String) (reg : Bool)
    (hsid : sid ≠ "") (hm : m ≠ "") (hresp : resp ≠ "")
    (hdisp : ∀ db1 : DB, dispatchStep o db1 sid m ud0 st0 d t = (db1, resp, ud', step', reg)) :
    process_message o ⟨gs, [⟨sid, some ud0, st0, hist, c0, u0⟩]⟩ sid m d t =
      (⟨gs, [⟨sid, some ud', step', [], t, t⟩]⟩, .ok (resp, reg)) := by
  have hb : (sid == "") = false := by simpa using hsid
  have hbm : (m == "") = false := by simpa using hm
  have hbr : (resp == "") = false := by simpa using hresp
  simp [process_message, get_chat_session, get_temp_chat_session, hb, findSession,
    add_chat_message, hbm, hbr, truthy, add_to_temp_session_chat_history,
    upsertSession, hdisp, update_chat_session]

/-- The registration turn: on a store with no complaints and the single
session at `collecting_complaint` with name and mobile collected, a
≥10-character message registers the complaint (copying the session history
including this turn's user entry, plus the synthetic system entry),
deletes the session, and the trailing bot-log and session-save re-create
the session with default contents. -/
theorem process_message_register (o : Oracles) (sid m d t : String) (nm mb : String)
    (cd : Option String) (hist : List ChatEntry) (c0 u0 : String)
    (hsid : sid ≠ "") (hm : m ≠ "") (hnm : nm ≠ "") (hmb : mb ≠ "")
    (hlen : 10 ≤ (pyStrip m.data).length) :
    process_message o ⟨[], [⟨sid, some ⟨some nm, some mb, cd⟩, some "collecting_complaint",
        hist, c0, u0⟩]⟩ sid m d t =
      (⟨[⟨"GRV" ++ d, nm, mb, m, "Submitted",
            (hist ++ [⟨sid, "User: " ++ m, t, true⟩]) ++
              [⟨sid, "System: Complaint registered successfully with ID " ++ ("GRV" ++ d),
                t, false⟩], t, t⟩],
          [⟨sid, some emptyUserData, some "initial_choice", [], t, t⟩]⟩,
        .ok (registeredText ("GRV" ++ d), true)) := by
  have hb : (sid == "") = false := by simpa using hsid
  have hbm : (m == "") = false := by simpa using hm
  have hbn : (nm == "") = false := by simpa using hnm
  have hbb : (mb == "") = false := by simpa using hmb
  have hreg : register_grievance
      (⟨[], [⟨sid, none, none, hist ++ [⟨sid, "User: " ++ m, t, true⟩], t, t⟩]⟩ : DB)
      nm mb m (some sid) d t =
      (⟨[⟨"GRV" ++ d, nm, mb, m, "Submitted",
          (hist ++ [⟨sid, "User: " ++ m, t, true⟩]) ++
            [⟨sid, "System: Complaint registered successfully with ID " ++ ("GRV" ++ d),
              t, false⟩], t, t⟩], []⟩,
        .ok ("GRV" ++ d)) := by
    simp [register_grievance, hbn, hbb, hbm, truthy, hb, is_session_already_used,
      get_temp_chat_session, findSession, delete_temp_chat_session]
  have hrne : registeredText ("GRV" ++ d) ≠ "" := by
    intro hc
    have h2 := congrArg String.data hc
    simp only [registeredText, String.data_append] at h2
    simp at h2
  simp [process_message, get_chat_session, get_temp_chat_session, hb, findSession,
    add_chat_message, hbm, truthy, add_to_temp_session_chat_history, upsertSession,
    dispatchStep, hlen, hreg, hrne, update_chat_session]

/-- C4 amended: from a fresh session on an empty store, the *first* call
only returns the welcome, so the four utterances must follow it (five
calls in all); then the last call returns `didRegisterComplaint = true`
with the response embedding the `GRV` + digits complaint id, exactly one
complaint with that id is stored, and the session is not gone but
re-created with fresh default contents (empty `user_data`, step
`initial_choice`, empty history) by the trailing bot-message log and
session save. -/
theorem round_trip (o : Oracles) (sid m0 m1 m2 m3 m4 nm mb : String)
    (d1 d2 d3 d4 d5 t1 t2 t3 t4 t5 : String)
    (hsid : sid ≠ "") (hm1 : m1 ≠ "") (hm2 : m2 ≠ "") (hm3 : m3 ≠ "") (hm4 : m4 ≠ "")
    (hint : analyze_intent o m1 = "register_complaint")
    (hname : extract_info_from_message m2 "name" = some nm) (hnm : nm ≠ "")
    (hmob : extract_info_from_message m3 "mobile" = some mb) (hmb : mb ≠ "")
    (hlen : 10 ≤ (pyStrip m4.data).length) :
    (let p0 := process_message o ⟨[], []⟩ sid m0 d1 t1
     let p1 := process_message o p0.1 sid m1 d2 t2
     let p2 := process_message o p1.1 sid m2 d3 t3
     let p3 := process_message o p2.1 sid m3 d4 t4
     let p4 := process_message o p3.1 sid m4 d5 t5
     p0.2 = .ok (welcomeText, false) ∧
       p4.2 = .ok (registeredText ("GRV" ++ d5), true) ∧
       get_chat_session p4.1 sid = some ⟨emptyUserData, some "initial_choice", []⟩ ∧
       p4.1.grievances.map Grievance.complaint_id = ["GRV" ++ d5]) := by
  have hb : (sid == "") = false := by simpa using hsid
  have h0 : process_message o ⟨[], []⟩ sid m0 d1 t1 =
      (⟨[], [⟨sid, some emptyUserData, some "initial_choice", [], t1, t1⟩]⟩,
        .ok (welcomeText, false)) := by
    have := process_message_fresh o ⟨[], []⟩ sid m0 d1 t1 hsid (by simp [findSession])
    simpa using this
  have h1 : process_message o
      (⟨[], [⟨sid, some emptyUserData, some "initial_choice", [], t1, t1⟩]⟩ : DB)
      sid m1 d2 t2 =
      (⟨[], [⟨sid, some emptyUserData, some "collecting_name", [], t2, t2⟩]⟩,
        .ok (namePromptText, false)) := by
    apply process_message_steady o [] sid m1 d2 t2 emptyUserData (some "initial_choice")
      [] t1 t1 namePromptText emptyUserData (some "collecting_name") false hsid hm1
      (by simp [namePromptText])
    intro db1
    simp [dispatchStep, hint]
  have h2 : process_message o
      (⟨[], [⟨sid, some emptyUserData, some "collecting_name", [], t2, t2⟩]⟩ : DB)
      sid m2 d3 t3 =
      (⟨[], [⟨sid, some ⟨some nm, none, none⟩, some "collecting_mobile", [], t3, t3⟩]⟩,
        .ok (mobilePromptText nm, false)) := by
    have hne2 : mobilePromptText nm ≠ "" := by
      intro hc
      have h2' := congrArg String.data hc
      simp only [mobilePromptText, String.data_append] at h2'
      simp at h2'
    apply process_message_steady o [] sid m2 d3 t3 emptyUserData (some "collecting_name")
      [] t2 t2 (mobilePromptText nm) ⟨some nm, none, none⟩ (some "collecting_mobile") false
      hsid hm2 hne2
    intro db1
    simp [dispatchStep, hname, emptyUserData]
  have h3 : process_message o
      (⟨[], [⟨sid, some ⟨some nm, none, none⟩, some "collecting_mobile", [], t3, t3⟩]⟩ : DB)
      sid m3 d4 t4 =
      (⟨[], [⟨sid, some ⟨some nm, some mb, none⟩, some "collecting_complaint", [], t4, t4⟩]⟩,
        .ok (detailsPromptText, false)) := by
    apply process_message_steady o [] sid m3 d4 t4 ⟨some nm, none, none⟩
      (some "collecting_mobile") [] t3 t3 detailsPromptText ⟨some nm, some mb, none⟩
      (some "collecting_complaint") false hsid hm3 (by simp [detailsPromptText])
    intro db1
    simp [dispatchStep, hmob]
  have h4 : process_message o
      (⟨[], [⟨sid, some ⟨some nm, some mb, none⟩, some "collecting_complaint", [], t4, t4⟩]⟩ : DB)
      sid m4 d5 t5 =
      (⟨[⟨"GRV" ++ d5, nm, mb, m4, "Submitted",
            ([] ++ [⟨sid, "User: " ++ m4, t5, true⟩]) ++
              [⟨sid, "System: Complaint registered successfully with ID " ++ ("GRV" ++ d5),
                t5, false⟩], t5, t5⟩],
          [⟨sid, some emptyUserData, some "initial_choice", [], t5, t5⟩]⟩,
        .ok (registeredText ("GRV" ++ d5), true)) :=
    process_message_register o sid m4 d5 t5 nm mb none [] t4 t4 hsid hm4 hnm hmb hlen
  simp [h0, h1, h2, h3, h4, get_chat_session, get_temp_chat_session, hb, findSession]

/-- C4 witness. -/
theorem round_trip_witness :
    (let p0 := process_message c4oracle ⟨[], []⟩ "sess1" "hello" "000000" "t0"
     let p1 := process_message c4oracle p0.1 "sess1"
        "I want to register a new complaint" "111111" "t1"
     let p2 := process_message c4oracle p1.1 "sess1" "John Doe" "222222" "t2"
     let p3 := process_message c4oracle p2.1 "sess1" "9876543210" "333333" "t3"
     let p4 := process_message c4oracle p3.1 "sess1" "My laptop is broken badly" "444444" "t4"
     p0.2 = .ok (welcomeText, false) ∧
       p4.2 = .ok (registeredText ("GRV" ++ "444444"), true) ∧
       get_chat_session p4.1 "sess1" = some ⟨emptyUserData, some "initial_choice", []⟩ ∧
       p4.1.grievances.map Grievance.complaint_id = ["GRV" ++ "444444"]) :=
  round_trip c4oracle "sess1" "hello" "I want to register a new complaint" "John Doe"
    "9876543210" "My laptop is broken badly" "John Doe" "9876543210"
    "000000" "111111" "222222" "333333" "444444" "t0" "t1" "t2" "t3" "t4"
    (by decide) (by decide) (by decide) (by decide) (by decide)
    (by rfl) (by rfl) (by decide) (by rfl) (by decide) (by decide)

end GrievanceBot
